import Mathlib

/-!
Verification development for the telemetry instrumentation repository.

Part 1 embeds the HTTP handler and the OpenTelemetry glue that exist in the
source (src/http-hello/netlify-ts/src/functions/hello.ts, otel.ts and the
compiled revision src/unnamed/part_000).  Exceptions are modelled with
`Except String`; the mutable metric instruments of otel.ts are threaded as an
explicit `Metrics` state; operations of the vendored SDK that could throw at
runtime carry a Boolean fault flag so that the try/catch structure of the
source is exercised on both outcomes.

Part 2 models the telemetry export pipeline (Batching Queue, Batch Processor,
Exporter Client, Pipeline Handle) described by the specification.  That
pipeline is not implemented in the repository source — it lives in the
vendored OpenTelemetry SDK — so those definitions are modelled from the
specification text, as their doc comments state.
-/

namespace Spec2Proof

/-- Span correlation identifiers.  `span.spanContext()` in the source is read
immediately when the span is opened (hello.ts line 70 / part_000 line 75),
before the business operation runs, so both identifiers exist from the start
of the request. -/
structure SpanCtx where
  traceId : String
  spanId : String
deriving DecidableEq

/-- The HTTP response value returned by the Netlify handler:
`{ statusCode, body, headers }`. -/
structure Response where
  statusCode : Nat
  body : String
  headers : List (String × String)
deriving DecidableEq

/-- The metric instruments created in otel.ts lines 34-60: request counter,
invocation counter, error counter and the active-requests up/down counter.
They are module-level mutable state, threaded explicitly here. -/
structure Metrics where
  requestCount : Nat
  invocationCount : Nat
  errorCount : Nat
  activeRequests : Int
deriving DecidableEq

/-- Fault flags standing for the runtime failures the source defends against:
`initFails` — initializeOtel's body throws (otel.ts line 253 catch);
`trackStartFails` / `trackEndFails` — the active-request counter throws
(part_000 lines 54-59 and 223-229 wrap these calls in try/catch);
`recordFails` — the metric-recording call throws (part_000 lines 120-128,
150-157, 195-203 wrap recordRequest in try/catch). -/
structure Faults where
  initFails : Bool
  trackStartFails : Bool
  trackEndFails : Bool
  recordFails : Bool

/-- `recordRequest` from otel.ts lines 63-86: increments the request and
invocation counters and, for status ≥ 400, the error counter.  The fault flag
models the underlying metrics SDK throwing. -/
def recordRequest (fail : Bool) (statusCode : Nat) (m : Metrics) :
    Except String Metrics :=
  if fail then .error "metrics recording failed"
  else .ok { m with
    requestCount := m.requestCount + 1
    invocationCount := m.invocationCount + 1
    errorCount := if 400 ≤ statusCode then m.errorCount + 1 else m.errorCount }

/-- `trackActiveRequest` from otel.ts lines 89-94: adds +1 or -1 to the
active-requests up/down counter.  The fault flag models the SDK throwing. -/
def trackActiveRequest (fail : Bool) (increment : Bool) (m : Metrics) :
    Except String Metrics :=
  if fail then .error "active request tracking failed"
  else .ok { m with
    activeRequests := m.activeRequests + (if increment then 1 else -1) }

/-- A `try { op } catch (e) { console.error(...) }` block around a metrics
operation, as written in part_000 lines 54-59, 120-128, 150-157, 195-203 and
223-229: on failure the exception is swallowed and the state is unchanged. -/
def safely (op : Metrics → Except String Metrics) (m : Metrics) : Metrics :=
  match op m with
  | .ok m1 => m1
  | .error _ => m

/-- Result of OpenTelemetry initialization: a started SDK, or the `null`
returned when initialization failed. -/
inductive InitResult
  | sdkStarted
  | nullSdk
deriving DecidableEq

/-- The body of `initializeOtel` (otel.ts lines 96-252): builds exporters and
starts the SDK; any exception escapes to the surrounding catch. -/
def initializeOtelBody (fail : Bool) : Except String InitResult :=
  if fail then .error "Error initializing OpenTelemetry" else .ok .sdkStarted

/-- `initializeOtel` from otel.ts lines 96-257: the whole body is wrapped in
try/catch and a failure returns `null` instead of throwing (lines 253-256). -/
def initializeOtel (fail : Bool) : InitResult :=
  match initializeOtelBody fail with
  | .ok r => r
  | .error _ => .nullSdk

/-- The `hello` handler from part_000 lines 51-235 (the hardened revision of
hello.ts lines 46-233).  Control flow translated one-for-one:
`trackActiveRequest(true)` in try/catch; inside the span, the business logic
draws `r` and on `r = 1` records a 500 metric (in try/catch) and throws
`Error("netlify-ts hello error")`; otherwise records a 200 metric (in
try/catch) and returns 200 with body `"netlify-ts hello success"`.  The catch
block records a 500 metric (in try/catch) and returns 500 with the thrown
error's message as body; the finally block runs `trackActiveRequest(false)`
in try/catch.  Both exit paths attach the `X-Trace-Id` and `X-Span-Id`
headers from the span context captured at span start.  The inner computation
uses `Except (String × Metrics)` because a thrown exception does not undo
updates already made to the module-level metric instruments. -/
def handler (f : Faults) (sc : SpanCtx) (r : Nat) (m0 : Metrics) :
    Except String (Response × Metrics) :=
  let m1 := safely (trackActiveRequest f.trackStartFails true) m0
  let inner : Except (String × Metrics) (Response × Metrics) :=
    if r = 1 then
      let m2 := safely (recordRequest f.recordFails 500) m1
      .error ("netlify-ts hello error", m2)
    else
      let m2 := safely (recordRequest f.recordFails 200) m1
      .ok ({ statusCode := 200
             body := "netlify-ts hello success"
             headers := [("Content-Type", "text/plain"),
                         ("X-Trace-Id", sc.traceId),
                         ("X-Span-Id", sc.spanId)] }, m2)
  match inner with
  | .ok (resp, m2) =>
    let m3 := safely (trackActiveRequest f.trackEndFails false) m2
    .ok (resp, m3)
  | .error (msg, m2) =>
    let m3 := safely (recordRequest f.recordFails 500) m2
    let m4 := safely (trackActiveRequest f.trackEndFails false) m3
    .ok ({ statusCode := 500
           body := msg
           headers := [("Content-Type", "text/plain"),
                       ("X-Trace-Id", sc.traceId),
                       ("X-Span-Id", sc.spanId)] }, m4)

/-- One invocation as deployed: the module-level initialization guard
(part_000 lines 7-19 run `initializeOtel` inside try/catch and continue on
failure) followed by the handler call. -/
def invoke (f : Faults) (sc : SpanCtx) (r : Nat) (m0 : Metrics) :
    Except String (Response × Metrics) :=
  let _sdk := initializeOtel f.initFails
  handler f sc r m0

/-- The second revision of the handler (hello.ts lines 247-305): the business
logic runs under `FunctionTelemetry.executeWithSpan` (telemetry.ts), which
records and rethrows exceptions, and the promise's `.catch` turns a thrown
error into a 500 response.  Its success response carries only an
`X-Trace-Id` header (lines 287-294) and its `.catch` response carries no
correlation headers at all (lines 295-304). -/
def handlerV2 (sc : SpanCtx) (r : Nat) : Except String Response :=
  let inner : Except String Response :=
    if r = 1 then
      .error "netlify-ts hello error"
    else
      .ok { statusCode := 200
            body := "netlify-ts hello success"
            headers := [("Content-Type", "text/plain"),
                        ("X-Trace-Id", sc.traceId)] }
  match inner with
  | .ok resp => .ok resp
  | .error msg =>
    .ok { statusCode := 500
          body := msg
          headers := [("Content-Type", "text/plain")] }

/-- Modelled from the spec: the error taxonomy of the Batching Queue (§4.1,
§7) — `QueueFull` and `ShuttingDown`.  The pipeline itself is not in the
repository source; it is implemented by the vendored OpenTelemetry SDK. -/
inductive QueueError
  | QueueFull
  | ShuttingDown
deriving DecidableEq

/-- Modelled from the spec: the Batching Queue state (§3 Queue state) —
the buffered Records, identified by their monotonically increasing sequence
numbers, and the next sequence number to assign.  Missing from src: the
SDK's internal buffer. -/
structure QueueState where
  buf : List Nat
  nextSeq : Nat
deriving DecidableEq

/-- Modelled from the spec: `enqueue(record) -> Result<(), QueueError>`
(§4.1) — when the Queue holds `capacity` Records the call fails with
`QueueFull` (backpressure is signalled, nothing is silently dropped);
otherwise the Record is appended and receives the next sequence number. -/
def enqueue (capacity : Nat) (st : QueueState) : Except QueueError QueueState :=
  if capacity ≤ st.buf.length then .error .QueueFull
  else .ok { buf := st.buf ++ [st.nextSeq], nextSeq := st.nextSeq + 1 }

/-- Modelled from the spec: one `submit` call forwarded to `enqueue`,
tracking how many submissions were accepted and how many were rejected with
`QueueFull`. -/
def submitStep (capacity : Nat) (acc : QueueState × Nat × Nat) :
    QueueState × Nat × Nat :=
  match enqueue capacity acc.1 with
  | .ok st => (st, acc.2.1 + 1, acc.2.2)
  | .error _ => (acc.1, acc.2.1, acc.2.2 + 1)

/-- Modelled from the spec: a run of n `submit` calls with no intervening
flush, starting from the empty Queue.  Returns the final Queue state, the
accepted count and the rejected count. -/
def submitRun (capacity : Nat) : Nat → QueueState × Nat × Nat
  | 0 => (⟨[], 0⟩, 0, 0)
  | n + 1 => submitStep capacity (submitRun capacity n)

/-- Modelled from the spec: outcome of one send attempt by the Exporter
Client (§4.3) — success, transient failure (timeout, 5xx-equivalent,
connection refused) or permanent failure (4xx-equivalent other than 429). -/
inductive SendOutcome
  | success
  | transient
  | permanent
deriving DecidableEq

/-- Modelled from the spec: the overall result of `export(batch)` (§4.3) —
delivered, `ExportError::Permanent`, or retries exhausted. -/
inductive ExportResult
  | delivered
  | permanentFailure
  | exhausted
deriving DecidableEq

/-- Modelled from the spec: the retry/backoff configuration of the Exporter
Client (§4.3, §6) — base delay, multiplier, cap and max attempts. -/
structure RetryConfig where
  baseDelayMs : Nat
  multiplier : Nat
  capDelayMs : Nat
  maxAttempts : Nat

/-- Trace of one `export(batch)` call: its result, the number of send
attempts performed, the number of successful sends, and the backoff delays
slept between attempts, in order. -/
structure ExportTrace where
  result : ExportResult
  attempts : Nat
  successes : Nat
  delays : List Nat
deriving DecidableEq

/-- Modelled from the spec: the exponential backoff delay before retry
k + 2 (§4.3) — base delay times multiplier^k, capped at the configured
maximum delay. -/
def backoffDelay (cfg : RetryConfig) (k : Nat) : Nat :=
  min cfg.capDelayMs (cfg.baseDelayMs * cfg.multiplier ^ k)

/-- Modelled from the spec: the retry loop of `export(batch)` (§4.3).
`k` is the index of the current attempt, `fuel` the number of attempts
still allowed.  A successful send delivers; a permanent failure is
surfaced immediately with no retry; a transient failure sleeps the
backoff delay and retries while attempts remain. -/
def exportLoop (cfg : RetryConfig) (oracle : Nat → SendOutcome) :
    Nat → Nat → ExportTrace
  | _, 0 => ⟨.exhausted, 0, 0, []⟩
  | k, fuel + 1 =>
    match oracle k with
    | .success => ⟨.delivered, 1, 1, []⟩
    | .permanent => ⟨.permanentFailure, 1, 0, []⟩
    | .transient =>
      if fuel = 0 then ⟨.exhausted, 1, 0, []⟩
      else
        let t := exportLoop cfg oracle (k + 1) fuel
        ⟨t.result, t.attempts + 1, t.successes, backoffDelay cfg k :: t.delays⟩

/-- Modelled from the spec: `export(batch) -> Result<(), ExportError>`
(§4.3), run for at most `maxAttempts` attempts, where `oracle` gives the
outcome of the underlying network send on each attempt. -/
def exportBatch (cfg : RetryConfig) (oracle : Nat → SendOutcome) : ExportTrace :=
  exportLoop cfg oracle 0 cfg.maxAttempts

/-- Modelled from the spec: the Batch Processor's per-flush bookkeeping —
batches delivered so far and the dropped-Records counter (§4.3: a dropped
batch increments the count by its Record count). -/
structure FlushOutcome where
  exportedBatches : List (List Nat)
  droppedCount : Nat
deriving DecidableEq

/-- Modelled from the spec: one Flushing cycle handing a batch to the
Exporter Client (§4.2-4.3).  On delivery the batch is appended to the
exported sequence; on permanent failure or exhausted retries the batch is
dropped and the dropped counter increases by the batch's Record count. -/
def flushBatch (cfg : RetryConfig) (oracle : Nat → SendOutcome)
    (batch : List Nat) (st : FlushOutcome) : FlushOutcome × ExportTrace :=
  let t := exportBatch cfg oracle
  if t.result = .delivered then
    ({ st with exportedBatches := st.exportedBatches ++ [batch] }, t)
  else
    ({ st with droppedCount := st.droppedCount + batch.length }, t)

/-- The simulated exporter of the spec's test scenario (§8): the underlying
send fails transiently on the first two attempts and succeeds on the
third. -/
def flakyTwice : Nat → SendOutcome :=
  fun k => if k < 2 then .transient else .success

/-- Modelled from the spec: `ShutdownReport { flushed: u64, dropped: u64 }`
(§4.4).  Missing from src: the Pipeline Handle lives in the vendored SDK. -/
structure ShutdownReport where
  flushed : Nat
  dropped : Nat
deriving DecidableEq

/-- Modelled from the spec: the Pipeline Handle's state (§4.4) — the live
Queue of pending Records, the batches exported so far, the dropped-Records
counter, the next sequence number, and the cached report of a completed
shutdown (present exactly when shutdown has completed, making the second
call return immediately with the same report). -/
structure HandleState where
  queue : List Nat
  exported : List (List Nat)
  droppedCount : Nat
  nextSeq : Nat
  report : Option ShutdownReport
deriving DecidableEq

/-- Modelled from the spec: the reachability invariant of the Pipeline
Handle implied by §4.4 — a handle whose shutdown has completed retains no
Records in memory. -/
def HandleWF (st : HandleState) : Prop :=
  ∀ r, st.report = some r → st.queue = []

/-- Modelled from the spec: `shutdown(deadline) -> ShutdownReport` (§4.2
Draining, §4.4).  If shutdown already completed, the cached report is
returned immediately and nothing else happens.  Otherwise the Queue is
drained into a final batch handed to the Exporter Client; the export's
retries must complete within the deadline (the accumulated backoff time is
charged against it), in which case the Records count as flushed; otherwise
they are reported as dropped and never retried again.  Either way no
Records remain in memory and the report is cached. -/
def shutdown (cfg : RetryConfig) (oracle : Nat → SendOutcome) (deadline : Nat)
    (st : HandleState) : ShutdownReport × HandleState :=
  match st.report with
  | some r => (r, st)
  | none =>
    let batch := st.queue
    let t := exportBatch cfg oracle
    if t.result = .delivered ∧ t.delays.sum ≤ deadline then
      let r : ShutdownReport := ⟨batch.length, 0⟩
      (r, ⟨[], st.exported ++ [batch], st.droppedCount, st.nextSeq, some r⟩)
    else
      let r : ShutdownReport := ⟨0, batch.length⟩
      (r, ⟨[], st.exported, st.droppedCount + batch.length, st.nextSeq, some r⟩)

/-- Modelled from the spec: the Batch Processor's drain-and-export loop
(§4.2 Flushing): repeatedly take ownership of up to `batchMaxSize` of the
oldest Records via `drain` and export them as one batch, in order, until
the Queue is empty.  Missing from src: the SDK's batch processor loop. -/
def processQueue (batchMaxSize : Nat) (l : List Nat) : List (List Nat) :=
  if h : l = [] ∨ batchMaxSize = 0 then []
  else
    l.take batchMaxSize :: processQueue batchMaxSize (l.drop batchMaxSize)
termination_by l.length
decreasing_by
  push_neg at h
  obtain ⟨h1, h2⟩ := h
  have h3 := List.length_pos.mpr h1
  simp only [List.length_drop]
  omega

/-- Modelled from the spec: Batch Processor thresholds (§4.2, §6) —
`batchMaxSize` and `batchTimeoutMs`. -/
structure ProcConfig where
  batchMaxSize : Nat
  batchTimeoutMs : Nat

/-- Modelled from the spec: an event seen by the Batch Processor while
Accumulating — a Record submission, or the passage of `dt` milliseconds. -/
inductive ProcEvent
  | submit
  | tick (dt : Nat)

/-- Modelled from the spec: the Batch Processor's Accumulating state (§4.2)
— the Records accumulated since the last flush, the time elapsed since the
last flush, the next sequence number, and the batches flushed so far. -/
structure ProcState where
  buf : List Nat
  elapsed : Nat
  nextSeq : Nat
  flushed : List (List Nat)
deriving DecidableEq

/-- Modelled from the spec: the Batch Processor's initial Idle state. -/
def procInit : ProcState := ⟨[], 0, 0, []⟩

/-- Modelled from the spec: the Accumulating→Flushing transition — the
accumulated batch is handed off whole and both the occupancy and the
time-since-last-flush reset. -/
def flushNow (st : ProcState) : ProcState :=
  ⟨[], 0, st.nextSeq, st.flushed ++ [st.buf]⟩

/-- Modelled from the spec: one Batch Processor step (§4.2): a submission
appends a Record and triggers a flush at once if occupancy reaches
`batchMaxSize`; a tick advances the flush timer and triggers a flush at
once if the time since the last flush reaches `batchTimeoutMs`. -/
def procStep (cfg : ProcConfig) (st : ProcState) : ProcEvent → ProcState
  | .submit =>
    let st1 : ProcState := ⟨st.buf ++ [st.nextSeq], st.elapsed, st.nextSeq + 1, st.flushed⟩
    if cfg.batchMaxSize ≤ st1.buf.length then flushNow st1 else st1
  | .tick dt =>
    let st1 : ProcState := ⟨st.buf, st.elapsed + dt, st.nextSeq, st.flushed⟩
    if cfg.batchTimeoutMs ≤ st1.elapsed then flushNow st1 else st1

/-- Modelled from the spec: a Batch Processor execution — a fold of steps
from the initial state over an event trace. -/
def procRun (cfg : ProcConfig) (es : List ProcEvent) : ProcState :=
  es.foldl (procStep cfg) procInit

/-- Modelled from the spec: whole-pipeline configuration (§6) — the Queue
capacity and the batch size. -/
structure PipeConfig where
  queueCapacity : Nat
  batchMaxSize : Nat

/-- Modelled from the spec: the atomic steps of the pipeline (§4.1-4.4):
a `submit` (rejected when shutting down or when the Queue is full), a
`flush` draining up to `batchMaxSize` Records into the single in-flight
batch, a successful or failed export completing the in-flight batch, and
the final shutdown drain whose Records end up exported (delivered within
the deadline) or dropped. -/
inductive PipeEvent
  | submit
  | flush
  | exportOk
  | exportFail
  | shutdownFlush (delivered : Bool)

/-- Modelled from the spec: the whole-pipeline state (§3): the Queue, the
at-most-one in-flight batch (§5: exactly one Batch Processor loop), the
exported and permanently dropped Records, the next sequence number, and
the shutting-down flag. -/
structure PipeState where
  queue : List Nat
  inflight : Option (List Nat)
  exported : List Nat
  dropped : List Nat
  nextSeq : Nat
  shut : Bool
deriving DecidableEq

/-- The Records of the in-flight batch, if any. -/
def inflightList (st : PipeState) : List Nat := st.inflight.getD []

/-- Modelled from the spec: the pipeline's initial state — everything
empty. -/
def pipeInit : PipeState := ⟨[], none, [], [], 0, false⟩

/-- Modelled from the spec: the pipeline step relation (§4.1-4.4, §5).
`submit` assigns the next sequence number at enqueue time and appends to
the Queue unless rejected; `flush` moves the oldest `batchMaxSize` Records
from the Queue into the in-flight batch (membership fixed from then on);
`exportOk` moves the in-flight batch to exported; `exportFail` drops it;
`shutdownFlush` drains everything still pending to exported or dropped and
stops further submissions. -/
def pipeStep (cfg : PipeConfig) (st : PipeState) : PipeEvent → PipeState
  | .submit =>
    if st.shut then st
    else if cfg.queueCapacity ≤ st.queue.length then st
    else { st with queue := st.queue ++ [st.nextSeq], nextSeq := st.nextSeq + 1 }
  | .flush =>
    match st.inflight with
    | some _ => st
    | none =>
      if st.queue = [] then st
      else { st with inflight := some (st.queue.take cfg.batchMaxSize),
                     queue := st.queue.drop cfg.batchMaxSize }
  | .exportOk =>
    match st.inflight with
    | none => st
    | some b => { st with inflight := none, exported := st.exported ++ b }
  | .exportFail =>
    match st.inflight with
    | none => st
    | some b => { st with inflight := none, dropped := st.dropped ++ b }
  | .shutdownFlush delivered =>
    if delivered then
      { queue := [], inflight := none,
        exported := st.exported ++ (inflightList st ++ st.queue),
        dropped := st.dropped, nextSeq := st.nextSeq, shut := true }
    else
      { queue := [], inflight := none, exported := st.exported,
        dropped := st.dropped ++ (inflightList st ++ st.queue),
        nextSeq := st.nextSeq, shut := true }

/-- Modelled from the spec: a pipeline execution — a fold of the step
relation from the initial state over an event trace. -/
def pipeRun (cfg : PipeConfig) (es : List PipeEvent) : PipeState :=
  es.foldl (pipeStep cfg) pipeInit

/-- How many times sequence number q is visible across the four places a
Record can be: the Queue, the in-flight batch, the exported Records and the
permanently dropped Records. -/
def placesCount (st : PipeState) (q : Nat) : Nat :=
  st.queue.count q + (inflightList st).count q
    + st.exported.count q + st.dropped.count q

end Spec2Proof

namespace Spec2Proof

/-- C8: no error condition inside the telemetry pipeline is fatal to the
hosting application.  For every fault combination (initialization failure,
metric-recording failure, active-request tracking failure), every span
context, every drawn number and every starting metrics state, the invocation
returns an HTTP response — it never propagates an exception to its caller —
and the response's status code is one of the two documented business
outcomes, so telemetry failure never fails the instrumented operation.
`initializeOtel` likewise never throws: its body's error is caught and
surfaced as the documented null result. -/
theorem c8_never_fatal (f : Faults) (sc : SpanCtx) (r : Nat) (m0 : Metrics) :
    (∃ resp m1, invoke f sc r m0 = .ok (resp, m1)
        ∧ (resp.statusCode = 200 ∨ resp.statusCode = 500))
    ∧ (initializeOtelBody f.initFails = .error "Error initializing OpenTelemetry"
        → initializeOtel f.initFails = .nullSdk) := by
  constructor
  · by_cases hr : r = 1
    · subst hr
      exact ⟨_, _, rfl, Or.inr rfl⟩
    · simp only [invoke, handler, if_neg hr]
      exact ⟨_, _, rfl, Or.inl rfl⟩
  · intro h
    simp [initializeOtel, h]

/-- Witness for C8 at a concrete input: all faults on, the error draw, and
zeroed metrics. -/
theorem c8_never_fatal_witness :
    (∃ resp m1,
        invoke ⟨true, true, true, true⟩ ⟨"t", "s"⟩ 1 ⟨0, 0, 0, 0⟩ = .ok (resp, m1)
          ∧ (resp.statusCode = 200 ∨ resp.statusCode = 500))
    ∧ (initializeOtelBody true = .error "Error initializing OpenTelemetry"
        → initializeOtel true = .nullSdk) :=
  c8_never_fatal ⟨true, true, true, true⟩ ⟨"t", "s"⟩ 1 ⟨0, 0, 0, 0⟩

/-- C10: over the drawn random number r ∈ 1..9 the handler is total and
produces exactly one of two responses: 200 / "netlify-ts hello success" when
r ≠ 1, and 500 / "netlify-ts hello error" when r = 1 — for every fault
combination and starting state. -/
theorem c10_two_outcomes (f : Faults) (sc : SpanCtx) (r : Nat) (m0 : Metrics)
    (h1 : 1 ≤ r) (h9 : r ≤ 9) :
    ∃ resp m1, invoke f sc r m0 = .ok (resp, m1)
      ∧ (if r = 1 then
          resp.statusCode = 500 ∧ resp.body = "netlify-ts hello error"
        else
          resp.statusCode = 200 ∧ resp.body = "netlify-ts hello success") := by
  by_cases hr : r = 1
  · subst hr
    refine ⟨_, _, rfl, ?_⟩
    simp
  · simp only [invoke, handler, if_neg hr]
    refine ⟨_, _, rfl, ?_⟩
    simp [hr]

/-- Witness for C10 at the concrete draws r = 1 and (via the theorem applied
once) discharging both range hypotheses. -/
theorem c10_two_outcomes_witness :
    ∃ resp m1,
      invoke ⟨false, false, false, false⟩ ⟨"t", "s"⟩ 1 ⟨0, 0, 0, 0⟩ = .ok (resp, m1)
        ∧ (if (1 : Nat) = 1 then
            resp.statusCode = 500 ∧ resp.body = "netlify-ts hello error"
          else
            resp.statusCode = 200 ∧ resp.body = "netlify-ts hello success") :=
  c10_two_outcomes ⟨false, false, false, false⟩ ⟨"t", "s"⟩ 1 ⟨0, 0, 0, 0⟩
    (by decide) (by decide)

/-- C9 counterexample: the FunctionTelemetry-based revision of the handler
(hello.ts lines 287-304), one of the handlers the claim covers, returns its
error response with no `X-Trace-Id` and no `X-Span-Id` header — its headers
are exactly `Content-Type` — so the claim that every exit path of every
cited handler carries both correlation identifiers is false. -/
theorem c9_counterexample :
    handlerV2 ⟨"abc", "def"⟩ 1 =
      .ok ⟨500, "netlify-ts hello error", [("Content-Type", "text/plain")]⟩ := by
  rfl

/-- C9 amended: the primary handler (part_000 / hello.ts first revision)
attaches both `X-Trace-Id` and `X-Span-Id` response headers on every exit
path, with the identifiers taken from the span context captured at span
start and therefore available before the operation completes; the
FunctionTelemetry-based second revision attaches only `X-Trace-Id`, and only
on its success path — its error path returns no correlation headers. -/
theorem c9_correlation_headers (f : Faults) (sc : SpanCtx) (r : Nat) (m0 : Metrics) :
    (∃ resp m1, handler f sc r m0 = .ok (resp, m1)
        ∧ ("X-Trace-Id", sc.traceId) ∈ resp.headers
        ∧ ("X-Span-Id", sc.spanId) ∈ resp.headers)
    ∧ (r ≠ 1 → ∃ resp, handlerV2 sc r = .ok resp
        ∧ ("X-Trace-Id", sc.traceId) ∈ resp.headers)
    ∧ handlerV2 sc 1 =
        .ok ⟨500, "netlify-ts hello error", [("Content-Type", "text/plain")]⟩ := by
  refine ⟨?_, ?_, rfl⟩
  · by_cases hr : r = 1
    · subst hr
      exact ⟨_, _, rfl, by simp, by simp⟩
    · simp only [handler, if_neg hr]
      exact ⟨_, _, rfl, by simp, by simp⟩
  · intro hr
    simp only [handlerV2, if_neg hr]
    exact ⟨_, rfl, by simp⟩

/-- Witness for the amended C9 at a concrete input: the success draw r = 3,
discharging the r ≠ 1 hypothesis. -/
theorem c9_correlation_headers_witness :
    (∃ resp m1, handler ⟨false, false, false, false⟩ ⟨"t", "s"⟩ 3 ⟨0, 0, 0, 0⟩
          = .ok (resp, m1)
        ∧ ("X-Trace-Id", "t") ∈ resp.headers
        ∧ ("X-Span-Id", "s") ∈ resp.headers)
    ∧ ((3 : Nat) ≠ 1 → ∃ resp, handlerV2 ⟨"t", "s"⟩ 3 = .ok resp
        ∧ ("X-Trace-Id", "t") ∈ resp.headers)
    ∧ handlerV2 ⟨"t", "s"⟩ 1 =
        .ok ⟨500, "netlify-ts hello error", [("Content-Type", "text/plain")]⟩ :=
  c9_correlation_headers ⟨false, false, false, false⟩ ⟨"t", "s"⟩ 3 ⟨0, 0, 0, 0⟩

/-- C2: for every capacity and every number n of submissions with no
intervening flush, the first min n capacity submissions are accepted (the
Queue then holds exactly the Records with sequence numbers
0..min n capacity - 1, nothing silently dropped), the remaining
n - min n capacity are rejected, and once the Queue holds capacity Records
every further enqueue fails with `QueueFull`; for n ≥ capacity the accepted
count equals the capacity exactly. -/
theorem c2_queue_capacity (capacity n : Nat) :
    submitRun capacity n =
      (⟨List.range (min n capacity), min n capacity⟩,
        min n capacity, n - min n capacity)
    ∧ (∀ st : QueueState, capacity ≤ st.buf.length →
        enqueue capacity st = .error .QueueFull)
    ∧ (capacity ≤ n → (submitRun capacity n).2.1 = capacity) := by
  have key : submitRun capacity n =
      (⟨List.range (min n capacity), min n capacity⟩,
        min n capacity, n - min n capacity) := by
    induction n with
    | zero => simp [submitRun]
    | succ n ih =>
      rw [submitRun, ih]
      by_cases h : n < capacity
      · have h1 : min n capacity = n := Nat.min_eq_left h.le
        have h2 : min (n + 1) capacity = n + 1 := Nat.min_eq_left h
        simp [submitStep, enqueue, h1, h2, List.range_succ, Nat.not_le.mpr h,
          Prod.ext_iff]
      · have h1 : min n capacity = capacity := Nat.min_eq_right (by omega)
        have h2 : min (n + 1) capacity = capacity := Nat.min_eq_right (by omega)
        simp [submitStep, enqueue, h1, h2, Nat.le_of_not_lt h, Prod.ext_iff]
        all_goals omega
  refine ⟨key, fun st h => by simp [enqueue, h], fun h => by rw [key]; simpa using by omega⟩

/-- Witness for C2 at capacity 2 and 5 submissions: the first 2 are
accepted, the last 3 rejected, and a full queue rejects with QueueFull. -/
theorem c2_queue_capacity_witness :
    (submitRun 2 5 = (⟨List.range (min 5 2), min 5 2⟩, min 5 2, 5 - min 5 2)
      ∧ (∀ st : QueueState, 2 ≤ st.buf.length → enqueue 2 st = .error .QueueFull)
      ∧ (2 ≤ 5 → (submitRun 2 5).2.1 = 2))
    ∧ enqueue 2 ⟨[0, 1], 2⟩ = .error .QueueFull ∧ (submitRun 2 5).2.1 = 2 :=
  ⟨c2_queue_capacity 2 5,
    (c2_queue_capacity 2 5).2.1 ⟨[0, 1], 2⟩ (by decide),
    (c2_queue_capacity 2 5).2.2 (by decide)⟩

/-- C3: with the underlying send failing transiently exactly twice and then
succeeding, export delivers the batch exactly once (one successful send,
the batch appended to the exported sequence once and the dropped counter
unchanged), after exactly 2 backoff delays equal to the configured base
delay and base delay times the multiplier, within the configured
max-attempts bound. -/
theorem c3_transient_then_success (cfg : RetryConfig) (batch : List Nat)
    (st : FlushOutcome) (h3 : 3 ≤ cfg.maxAttempts)
    (hb : cfg.baseDelayMs ≤ cfg.capDelayMs)
    (hc : cfg.baseDelayMs * cfg.multiplier ≤ cfg.capDelayMs) :
    exportBatch cfg flakyTwice =
      ⟨.delivered, 3, 1, [cfg.baseDelayMs, cfg.baseDelayMs * cfg.multiplier]⟩
    ∧ (flushBatch cfg flakyTwice batch st).1.exportedBatches =
        st.exportedBatches ++ [batch]
    ∧ (flushBatch cfg flakyTwice batch st).1.droppedCount = st.droppedCount := by
  obtain ⟨k, hk⟩ : ∃ k, cfg.maxAttempts = k + 3 := ⟨cfg.maxAttempts - 3, by omega⟩
  have d0 : backoffDelay cfg 0 = cfg.baseDelayMs := by
    simp [backoffDelay, Nat.min_eq_right hb]
  have d1 : backoffDelay cfg 1 = cfg.baseDelayMs * cfg.multiplier := by
    simp [backoffDelay, Nat.min_eq_right hc]
  have step2 : ∀ f2 : Nat, exportLoop cfg flakyTwice 2 (f2 + 1) =
      ⟨.delivered, 1, 1, []⟩ := by
    intro f2
    simp [exportLoop, flakyTwice]
  have step1 : exportLoop cfg flakyTwice 1 (k + 1 + 1) =
      ⟨.delivered, 2, 1, [backoffDelay cfg 1]⟩ := by
    rw [exportLoop]
    simp only [flakyTwice]
    norm_num
    rw [step2 k]
    simp
  have step0 : exportLoop cfg flakyTwice 0 (k + 2 + 1) =
      ⟨.delivered, 3, 1, [backoffDelay cfg 0, backoffDelay cfg 1]⟩ := by
    rw [exportLoop]
    simp only [flakyTwice]
    norm_num
    rw [show k + 2 = k + 1 + 1 from rfl, step1]
    simp
  have he : exportBatch cfg flakyTwice =
      ⟨.delivered, 3, 1, [cfg.baseDelayMs, cfg.baseDelayMs * cfg.multiplier]⟩ := by
    rw [exportBatch, hk, show k + 3 = k + 2 + 1 from rfl, step0, d0, d1]
  exact ⟨he, by simp [flushBatch, he], by simp [flushBatch, he]⟩

/-- Witness for C3 at the spec's default configuration (base 1s,
multiplier 2, cap 30s, max attempts 5). -/
theorem c3_transient_then_success_witness :
    exportBatch ⟨1000, 2, 30000, 5⟩ flakyTwice =
      ⟨.delivered, 3, 1, [1000, 1000 * 2]⟩
    ∧ (flushBatch ⟨1000, 2, 30000, 5⟩ flakyTwice [7] ⟨[], 0⟩).1.exportedBatches =
        [] ++ [[7]]
    ∧ (flushBatch ⟨1000, 2, 30000, 5⟩ flakyTwice [7] ⟨[], 0⟩).1.droppedCount = 0 :=
  c3_transient_then_success ⟨1000, 2, 30000, 5⟩ [7] ⟨[], 0⟩
    (by decide) (by decide) (by decide)

/-- C4: with the underlying send returning a permanent failure, export
returns `ExportError::Permanent` after exactly 1 attempt with no retry and
no backoff delay, the batch is not exported, and the dropped counter
increases by exactly the batch's Record count. -/
theorem c4_permanent_failure (cfg : RetryConfig) (batch : List Nat)
    (st : FlushOutcome) (h1 : 1 ≤ cfg.maxAttempts) :
    exportBatch cfg (fun _ => .permanent) = ⟨.permanentFailure, 1, 0, []⟩
    ∧ (flushBatch cfg (fun _ => .permanent) batch st).1.exportedBatches =
        st.exportedBatches
    ∧ (flushBatch cfg (fun _ => .permanent) batch st).1.droppedCount =
        st.droppedCount + batch.length := by
  obtain ⟨k, hk⟩ : ∃ k, cfg.maxAttempts = k + 1 := ⟨cfg.maxAttempts - 1, by omega⟩
  have he : exportBatch cfg (fun _ => .permanent) =
      ⟨.permanentFailure, 1, 0, []⟩ := by
    rw [exportBatch, hk]
    simp [exportLoop]
  exact ⟨he, by simp [flushBatch, he], by simp [flushBatch, he]⟩

/-- Witness for C4 at the default configuration with a two-Record batch and
a prior dropped count of 3. -/
theorem c4_permanent_failure_witness :
    exportBatch ⟨1000, 2, 30000, 5⟩ (fun _ => .permanent) =
      ⟨.permanentFailure, 1, 0, []⟩
    ∧ (flushBatch ⟨1000, 2, 30000, 5⟩ (fun _ => .permanent) [4, 5] ⟨[], 3⟩).1.exportedBatches = []
    ∧ (flushBatch ⟨1000, 2, 30000, 5⟩ (fun _ => .permanent) [4, 5] ⟨[], 3⟩).1.droppedCount = 3 + [4, 5].length :=
  c4_permanent_failure ⟨1000, 2, 30000, 5⟩ [4, 5] ⟨[], 3⟩ (by decide)

/-- C5: shutdown is idempotent.  From any well-formed handle state (one in
which a completed shutdown retains no Records) and for any deadlines and
any exporter behaviour on the two calls, the second shutdown call returns
a report identical to the first and leaves the state — in particular the
exported batches — untouched, so nothing is exported a second time; and
after the first call returns, the Queue is empty, i.e. no Records are
retained in memory. -/
theorem c5_shutdown_idempotent (cfg1 cfg2 : RetryConfig)
    (o1 o2 : Nat → SendOutcome) (d1 d2 : Nat) (st : HandleState)
    (hwf : HandleWF st) :
    (shutdown cfg2 o2 d2 (shutdown cfg1 o1 d1 st).2).1 = (shutdown cfg1 o1 d1 st).1
    ∧ (shutdown cfg2 o2 d2 (shutdown cfg1 o1 d1 st).2).2 = (shutdown cfg1 o1 d1 st).2
    ∧ (shutdown cfg2 o2 d2 (shutdown cfg1 o1 d1 st).2).2.exported =
        (shutdown cfg1 o1 d1 st).2.exported
    ∧ (shutdown cfg1 o1 d1 st).2.queue = [] := by
  cases hr : st.report with
  | some r =>
    have hq : st.queue = [] := hwf r hr
    simp [shutdown, hr, hq]
  | none =>
    simp only [shutdown, hr]
    by_cases hok : (exportBatch cfg1 o1).result = .delivered
      ∧ (exportBatch cfg1 o1).delays.sum ≤ d1
    · rw [if_pos hok]
      simp [shutdown]
    · rw [if_neg hok]
      simp [shutdown]

/-- Witness for C5 at a concrete input: a fresh handle holding two Records,
an always-successful exporter, and two different deadlines. -/
theorem c5_shutdown_idempotent_witness :
    (shutdown ⟨1000, 2, 30000, 5⟩ (fun _ => .success) 7
        (shutdown ⟨1000, 2, 30000, 5⟩ (fun _ => .success) 0 ⟨[3, 4], [], 0, 5, none⟩).2).1 =
      (shutdown ⟨1000, 2, 30000, 5⟩ (fun _ => .success) 0 ⟨[3, 4], [], 0, 5, none⟩).1
    ∧ (shutdown ⟨1000, 2, 30000, 5⟩ (fun _ => .success) 7
        (shutdown ⟨1000, 2, 30000, 5⟩ (fun _ => .success) 0 ⟨[3, 4], [], 0, 5, none⟩).2).2 =
      (shutdown ⟨1000, 2, 30000, 5⟩ (fun _ => .success) 0 ⟨[3, 4], [], 0, 5, none⟩).2
    ∧ (shutdown ⟨1000, 2, 30000, 5⟩ (fun _ => .success) 7
        (shutdown ⟨1000, 2, 30000, 5⟩ (fun _ => .success) 0 ⟨[3, 4], [], 0, 5, none⟩).2).2.exported =
      (shutdown ⟨1000, 2, 30000, 5⟩ (fun _ => .success) 0 ⟨[3, 4], [], 0, 5, none⟩).2.exported
    ∧ (shutdown ⟨1000, 2, 30000, 5⟩ (fun _ => .success) 0 ⟨[3, 4], [], 0, 5, none⟩).2.queue = [] :=
  c5_shutdown_idempotent ⟨1000, 2, 30000, 5⟩ ⟨1000, 2, 30000, 5⟩
    (fun _ => .success) (fun _ => .success) 0 7 ⟨[3, 4], [], 0, 5, none⟩
    (fun _ h => Option.noConfusion h)

/-- `processQueue` of the empty Queue produces no batches. -/
theorem processQueue_nil (m : Nat) : processQueue m [] = [] := by
  rw [processQueue]
  simp

/-- `processQueue` of a nonempty Queue with a positive batch size drains
one batch of the oldest `m` Records and recurses on the rest. -/
theorem processQueue_cons (m : Nat) (l : List Nat) (hm : m ≠ 0) (hl : l ≠ []) :
    processQueue m l = l.take m :: processQueue m (l.drop m) := by
  rw [processQueue]
  simp [hm, hl]

/-- Concatenating the batches drained by `processQueue` gives back the
Queue contents unchanged and in order. -/
theorem processQueue_flatten (m : Nat) (hm : m ≠ 0) :
    ∀ (N : Nat) (l : List Nat), l.length ≤ N → (processQueue m l).flatten = l := by
  intro N
  induction N with
  | zero =>
    intro l hl
    have hnil : l = [] := List.length_eq_zero.mp (Nat.le_zero.mp hl)
    subst hnil
    simp [processQueue_nil]
  | succ N ih =>
    intro l hl
    by_cases hnil : l = []
    · subst hnil
      simp [processQueue_nil]
    · have h1 : 0 < l.length := List.length_pos.mpr hnil
      rw [processQueue_cons m l hm hnil, List.flatten_cons,
        ih (l.drop m) (by simp only [List.length_drop]; omega),
        List.take_append_drop]

/-- C6: for every number n of submitted Records and every positive batch
size, the exported batches concatenate back to the submitted sequence 0..n-1
in submission order — so Records are exported in non-decreasing
sequence-number order across successive batches — and in the spec's
end-to-end scenario (600 Records, batchMaxSize 512) exactly two batches are
exported, of sizes 512 and 88. -/
theorem c6_export_order (n m : Nat) (hm : 0 < m) :
    (processQueue m (List.range n)).flatten = List.range n
    ∧ List.Sorted (· ≤ ·) ((processQueue m (List.range n)).flatten)
    ∧ (n = 600 → m = 512 →
        (processQueue m (List.range n)).map List.length = [512, 88]) := by
  have hf : (processQueue m (List.range n)).flatten = List.range n :=
    processQueue_flatten m hm.ne' (List.range n).length (List.range n) le_rfl
  refine ⟨hf, ?_, ?_⟩
  · rw [hf]
    exact List.sorted_le_range n
  · rintro rfl rfl
    have h600 : (List.range 600) ≠ [] := by simp
    have hdlen : ((List.range 600).drop 512).length = 88 := by simp
    have hd : (List.range 600).drop 512 ≠ [] := by
      intro h
      rw [h] at hdlen
      simp at hdlen
    have hdd : ((List.range 600).drop 512).drop 512 = [] := by
      apply List.length_eq_zero.mp
      simp
    rw [processQueue_cons 512 _ (by decide) h600,
      processQueue_cons 512 _ (by decide) hd, hdd, processQueue_nil]
    simp [List.length_take, hdlen]

/-- Witness for C6 at the spec's end-to-end scenario n = 600, m = 512. -/
theorem c6_export_order_witness :
    (processQueue 512 (List.range 600)).flatten = List.range 600
    ∧ List.Sorted (· ≤ ·) ((processQueue 512 (List.range 600)).flatten)
    ∧ ((600 : Nat) = 600 → (512 : Nat) = 512 →
        (processQueue 512 (List.range 600)).map List.length = [512, 88]) :=
  c6_export_order 600 512 (by decide)

/-- C7: with positive thresholds, every state reachable by the Batch
Processor satisfies occupancy < batchMaxSize and time-since-last-flush <
batchTimeoutMs — it never stays Accumulating past either threshold — and a
step flushes exactly at the first moment a threshold is reached: a
submission that brings occupancy to batchMaxSize flushes that very batch
immediately (regardless of the timer, so before batchTimeoutMs elapses,
even under continuous submission), a tick that brings the timer to
batchTimeoutMs flushes immediately, and no step below both thresholds
flushes. -/
theorem c7_flush_thresholds (cfg : ProcConfig) (es : List ProcEvent)
    (hm : 0 < cfg.batchMaxSize) (ht : 0 < cfg.batchTimeoutMs) :
    ((procRun cfg es).buf.length < cfg.batchMaxSize
      ∧ (procRun cfg es).elapsed < cfg.batchTimeoutMs)
    ∧ (∀ st : ProcState, cfg.batchMaxSize ≤ st.buf.length + 1 →
        (procStep cfg st .submit).flushed = st.flushed ++ [st.buf ++ [st.nextSeq]]
          ∧ (procStep cfg st .submit).buf = [])
    ∧ (∀ st : ProcState, st.buf.length + 1 < cfg.batchMaxSize →
        (procStep cfg st .submit).flushed = st.flushed)
    ∧ (∀ (st : ProcState) (dt : Nat), cfg.batchTimeoutMs ≤ st.elapsed + dt →
        (procStep cfg st (.tick dt)).flushed = st.flushed ++ [st.buf]
          ∧ (procStep cfg st (.tick dt)).elapsed = 0)
    ∧ (∀ (st : ProcState) (dt : Nat), st.elapsed + dt < cfg.batchTimeoutMs →
        (procStep cfg st (.tick dt)).flushed = st.flushed) := by
  have stepInv : ∀ (st : ProcState) (e : ProcEvent),
      st.buf.length < cfg.batchMaxSize → st.elapsed < cfg.batchTimeoutMs →
      (procStep cfg st e).buf.length < cfg.batchMaxSize
        ∧ (procStep cfg st e).elapsed < cfg.batchTimeoutMs := by
    intro st e h1 h2
    cases e with
    | submit =>
      simp only [procStep]
      split
      · simpa [flushNow] using ⟨hm, ht⟩
      · next hc => exact ⟨by simpa using hc, h2⟩
    | tick dt =>
      simp only [procStep]
      split
      · simpa [flushNow] using ⟨hm, ht⟩
      · next hc => exact ⟨h1, by simpa using hc⟩
  have inv : ∀ (l : List ProcEvent) (st : ProcState),
      st.buf.length < cfg.batchMaxSize → st.elapsed < cfg.batchTimeoutMs →
      (l.foldl (procStep cfg) st).buf.length < cfg.batchMaxSize
        ∧ (l.foldl (procStep cfg) st).elapsed < cfg.batchTimeoutMs := by
    intro l
    induction l with
    | nil => intro st h1 h2; exact ⟨h1, h2⟩
    | cons e t ih =>
      intro st h1 h2
      have h3 := stepInv st e h1 h2
      exact ih _ h3.1 h3.2
  refine ⟨inv es procInit (by simpa [procInit] using hm) (by simpa [procInit] using ht),
    ?_, ?_, ?_, ?_⟩
  · intro st hc
    simp [procStep, flushNow, hc]
  · intro st hc
    simp [procStep, Nat.not_le.mpr hc]
  · intro st dt hc
    simp [procStep, flushNow, hc]
  · intro st dt hc
    simp [procStep, Nat.not_le.mpr hc]

/-- Witness for C7 at a concrete input: the default thresholds 512 / 5000ms
and a trace with one submission and a timer overrun. -/
theorem c7_flush_thresholds_witness :
    ((procRun ⟨512, 5000⟩ [.submit, .tick 6000]).buf.length < 512
      ∧ (procRun ⟨512, 5000⟩ [.submit, .tick 6000]).elapsed < 5000)
    ∧ (∀ st : ProcState, 512 ≤ st.buf.length + 1 →
        (procStep ⟨512, 5000⟩ st .submit).flushed = st.flushed ++ [st.buf ++ [st.nextSeq]]
          ∧ (procStep ⟨512, 5000⟩ st .submit).buf = [])
    ∧ (∀ st : ProcState, st.buf.length + 1 < 512 →
        (procStep ⟨512, 5000⟩ st .submit).flushed = st.flushed)
    ∧ (∀ (st : ProcState) (dt : Nat), 5000 ≤ st.elapsed + dt →
        (procStep ⟨512, 5000⟩ st (.tick dt)).flushed = st.flushed ++ [st.buf]
          ∧ (procStep ⟨512, 5000⟩ st (.tick dt)).elapsed = 0)
    ∧ (∀ (st : ProcState) (dt : Nat), st.elapsed + dt < 5000 →
        (procStep ⟨512, 5000⟩ st (.tick dt)).flushed = st.flushed) :=
  c7_flush_thresholds ⟨512, 5000⟩ [.submit, .tick 6000] (by decide) (by decide)

/-- Every pipeline step preserves the accounting invariant: each assigned
sequence number is visible exactly once across Queue, in-flight batch,
exported and dropped, and unassigned numbers are visible nowhere. -/
theorem pipeStep_places (cfg : PipeConfig) (st : PipeState) (e : PipeEvent)
    (h : ∀ q, placesCount st q = if q < st.nextSeq then 1 else 0) :
    ∀ q, placesCount (pipeStep cfg st e) q =
      if q < (pipeStep cfg st e).nextSeq then 1 else 0 := by
  intro q
  have hq := h q
  cases e with
  | submit =>
    by_cases hs : st.shut
    · simpa [pipeStep, hs] using hq
    by_cases hf : cfg.queueCapacity ≤ st.queue.length
    · simpa [pipeStep, hs, hf] using hq
    simp only [placesCount, inflightList] at hq
    simp [pipeStep, hs, hf, placesCount, inflightList, List.count_append,
      List.count_cons]
    split_ifs at hq ⊢ <;> omega
  | flush =>
    cases hifl : st.inflight with
    | some b => simpa [pipeStep, hifl] using hq
    | none =>
      by_cases he : st.queue = []
      · simpa [pipeStep, hifl, he] using hq
      have hsplit : (st.queue.take cfg.batchMaxSize).count q
          + (st.queue.drop cfg.batchMaxSize).count q = st.queue.count q := by
        rw [← List.count_append, List.take_append_drop]
      simp only [placesCount, inflightList, hifl, Option.getD_none,
        List.count_nil] at hq
      simp [pipeStep, hifl, he, placesCount, inflightList]
      split_ifs at hq ⊢ <;> omega
  | exportOk =>
    cases hifl : st.inflight with
    | none => simpa [pipeStep, hifl] using hq
    | some b =>
      simp only [placesCount, inflightList, hifl, Option.getD_some] at hq
      simp [pipeStep, hifl, placesCount, inflightList, List.count_append]
      split_ifs at hq ⊢ <;> omega
  | exportFail =>
    cases hifl : st.inflight with
    | none => simpa [pipeStep, hifl] using hq
    | some b =>
      simp only [placesCount, inflightList, hifl, Option.getD_some] at hq
      simp [pipeStep, hifl, placesCount, inflightList, List.count_append]
      split_ifs at hq ⊢ <;> omega
  | shutdownFlush delivered =>
    cases delivered with
    | true =>
      simp only [placesCount, inflightList] at hq
      simp [pipeStep, placesCount, inflightList, List.count_append]
      split_ifs at hq ⊢ <;> omega
    | false =>
      simp only [placesCount, inflightList] at hq
      simp [pipeStep, placesCount, inflightList, List.count_append]
      split_ifs at hq ⊢ <;> omega

/-- The accounting invariant holds in every reachable pipeline state. -/
theorem pipeRun_places (cfg : PipeConfig) (es : List PipeEvent) :
    ∀ q, placesCount (pipeRun cfg es) q =
      if q < (pipeRun cfg es).nextSeq then 1 else 0 := by
  suffices hgen : ∀ (l : List PipeEvent) (st : PipeState),
      (∀ q, placesCount st q = if q < st.nextSeq then 1 else 0) →
      ∀ q, placesCount (l.foldl (pipeStep cfg) st) q =
        if q < (l.foldl (pipeStep cfg) st).nextSeq then 1 else 0 by
    exact hgen es pipeInit (fun q => by simp [placesCount, pipeInit, inflightList])
  intro l
  induction l with
  | nil => intro st h; exact h
  | cons e t ih =>
    intro st h
    exact ih _ (pipeStep_places cfg st e h)

/-- C1: in every reachable pipeline state, every Record accepted by submit
(exactly those whose sequence number was assigned at enqueue time) is
counted in exactly one of the four disjoint places — Queue, the in-flight
batch, exported, permanently dropped.  The sum of its occurrence counts
over the four places is exactly 1 after any trace of enqueue, drain/flush,
export success, export failure and shutdown steps, so no step ever makes a
sequence number visible in two places at once. -/
theorem c1_exactly_one_place (cfg : PipeConfig) (es : List PipeEvent) (q : Nat)
    (hq : q < (pipeRun cfg es).nextSeq) :
    (pipeRun cfg es).queue.count q + (inflightList (pipeRun cfg es)).count q
      + (pipeRun cfg es).exported.count q + (pipeRun cfg es).dropped.count q = 1 := by
  have h := pipeRun_places cfg es q
  rw [placesCount, if_pos hq] at h
  exact h

/-- Witness for C1 at a concrete trace: two submissions, a flush, a
successful export, a further submission and a failed shutdown drain; the
first accepted Record is visible exactly once. -/
theorem c1_exactly_one_place_witness :
    (pipeRun ⟨2048, 512⟩ [.submit, .submit, .flush, .exportOk, .submit,
        .shutdownFlush false]).queue.count 0
      + (inflightList (pipeRun ⟨2048, 512⟩ [.submit, .submit, .flush, .exportOk,
          .submit, .shutdownFlush false])).count 0
      + (pipeRun ⟨2048, 512⟩ [.submit, .submit, .flush, .exportOk, .submit,
          .shutdownFlush false]).exported.count 0
      + (pipeRun ⟨2048, 512⟩ [.submit, .submit, .flush, .exportOk, .submit,
          .shutdownFlush false]).dropped.count 0 = 1 :=
  c1_exactly_one_place ⟨2048, 512⟩
    [.submit, .submit, .flush, .exportOk, .submit, .shutdownFlush false] 0
    (by decide)

end Spec2Proof
